import Mathlib

/-!
Verification of the clipboard utility package: a shallow embedding of the
content classifier/sanitizer (`src/domain/entities/Clipboard.ts`), the
clipboard access service and the stateful hook binding (`src/index.ts`),
together with proofs of the specified properties.

Strings are modelled as `List Char` (JavaScript strings are sequences of
code units; every string in play here is plain text, so a character list is
a faithful model).  JavaScript truthiness of a string ("" is falsy) and the
`x || fallback` idiom are modelled explicitly where the source uses them.
-/

namespace Clipboard

/-- The model of a JavaScript string: a list of characters. -/
abbrev JsString := List Char

/-- The set of characters removed by JavaScript `String.prototype.trim`:
ECMAScript WhiteSpace (TAB, VT, FF, SP, NBSP, ZWNBSP and the Unicode
space separators) plus LineTerminator (LF, CR, LS, PS). -/
def isJsWs (c : Char) : Bool :=
  c == ' ' || c == '\t' || c == '\n' || c == '\r' ||
  c == '\u000b' || c == '\u000c' || c == '\u00a0' || c == '\u1680' ||
  c == '\u2000' || c == '\u2001' || c == '\u2002' || c == '\u2003' ||
  c == '\u2004' || c == '\u2005' || c == '\u2006' || c == '\u2007' ||
  c == '\u2008' || c == '\u2009' || c == '\u200a' || c == '\u2028' ||
  c == '\u2029' || c == '\u202f' || c == '\u205f' || c == '\u3000' ||
  c == '\ufeff'

/-- JavaScript `text.trim()`: drop whitespace from both ends. -/
def jsTrim (s : JsString) : JsString :=
  ((s.dropWhile isJsWs).reverse.dropWhile isJsWs).reverse

/-- `CLIPBOARD_CONSTANTS.MAX_CONTENT_LENGTH` (10K characters max). -/
def MAX_CONTENT_LENGTH : Nat := 10000

/-- ASCII-only lower-casing of a character, as performed by a
case-insensitive regex without the unicode flag. -/
def asciiLower (c : Char) : Char :=
  if c.toNat ≥ 65 && c.toNat ≤ 90 then Char.ofNat (c.toNat + 32) else c

namespace ClipboardUtils

/-- `ClipboardUtils.isUrl`: `CLIPBOARD_CONSTANTS.URL_PATTERN.test(text)`
where the pattern is the case-insensitive anchored regex for `http://` or
`https://` at the start of the string. -/
def isUrl (text : JsString) : Bool :=
  List.isPrefixOf ("http://".data) (text.map asciiLower) ||
  List.isPrefixOf ("https://".data) (text.map asciiLower)

/-- `ClipboardUtils.isValidLength`: `text.length <= MAX_CONTENT_LENGTH`. -/
def isValidLength (text : JsString) : Bool :=
  text.length ≤ MAX_CONTENT_LENGTH

/-- `ClipboardUtils.sanitize`:
`text.trim().substring(0, CLIPBOARD_CONSTANTS.MAX_CONTENT_LENGTH)`. -/
def sanitize (text : JsString) : JsString :=
  (jsTrim text).take MAX_CONTENT_LENGTH

/-- `ClipboardUtils.formatForDisplay` (the source's default for `maxLength`
is 100; it is always passed explicitly here): return `text` unchanged when
it fits, else the first `maxLength` characters followed by `"..."`. -/
def formatForDisplay (text : JsString) (maxLength : Nat) : JsString :=
  if text.length ≤ maxLength then text
  else text.take maxLength ++ ("...".data)

end ClipboardUtils

/-- `ClipboardContentType` enumeration. -/
inductive ClipboardContentType where
  | TEXT
  | URL
  | EMPTY
deriving DecidableEq, Repr

/-- `ClipboardUtils.detectContentType`: EMPTY when the string is empty
(`!text || text.length === 0`), else URL when `isUrl`, else TEXT. -/
def ClipboardUtils.detectContentType (text : JsString) : ClipboardContentType :=
  if text.length = 0 then ClipboardContentType.EMPTY
  else if ClipboardUtils.isUrl text then ClipboardContentType.URL
  else ClipboardContentType.TEXT

/-- `ClipboardContent`: the metadata record built by `getContent`. -/
structure ClipboardContent where
  type : ClipboardContentType
  content : JsString
  timestamp : Nat
deriving DecidableEq, Repr

/-- `ClipboardResult`: the uniform outcome wrapper
`{success, content?, error?}`. -/
structure ClipboardResult where
  success : Bool
  content : Option JsString
  error : Option JsString
deriving DecidableEq, Repr

/-- A thrown JavaScript value at a platform-call boundary: `some msg` when
it is an `Error` carrying message `msg`, `none` otherwise.  Models the
`error instanceof Error ? error.message : fallback` idiom. -/
abbrev JsErr := Option JsString

/-- `error instanceof Error ? error.message : fallback`. -/
def errMsg (e : JsErr) (fallback : JsString) : JsString :=
  e.getD fallback

/-- JavaScript `x || fallback` for an optional string `x`: the fallback is
used when `x` is undefined or the empty string (both falsy). -/
def jsOr (o : Option JsString) (fallback : JsString) : JsString :=
  match o with
  | some e => if e = [] then fallback else e
  | none => fallback

/-- JavaScript truthiness of an optional string: false for undefined and
for the empty string. -/
def jsTruthyStr (o : Option JsString) : Bool :=
  match o with
  | some c => !(c.isEmpty)
  | none => false

/-- The platform clipboard capability (the `expo-clipboard` module), an
opaque external dependency with six asynchronous operations.  Each
operation acts on an abstract platform state `σ` and either returns a
value or throws; the state after the call is reported in both cases. -/
structure PlatformClipboard (σ : Type) where
  setStringAsync : JsString → σ → Except JsErr Unit × σ
  getStringAsync : σ → Except JsErr JsString × σ
  hasStringAsync : σ → Except JsErr Bool × σ
  setUrlAsync : JsString → σ → Except JsErr Unit × σ
  getUrlAsync : σ → Except JsErr (Option JsString) × σ
  hasUrlAsync : σ → Except JsErr Bool × σ

namespace ClipboardService

variable {σ : Type}

/-- `ClipboardService.copyText`: sanitize, write to the platform clipboard,
return `{success: true, content: sanitized}`; on a thrown platform error,
`{success: false, error: message-or-fallback}`. -/
def copyText (p : PlatformClipboard σ) (text : JsString) (s : σ) :
    ClipboardResult × σ :=
  let sanitized := ClipboardUtils.sanitize text
  match p.setStringAsync sanitized s with
  | (Except.ok _, s') => (⟨true, some sanitized, none⟩, s')
  | (Except.error e, s') =>
      (⟨false, none, some (errMsg e ("Failed to copy".data))⟩, s')

/-- `ClipboardService.copyUrl`: reject non-URLs with "Invalid URL format"
before any platform call; otherwise write via `setUrlAsync` and return the
original url as content. -/
def copyUrl (p : PlatformClipboard σ) (url : JsString) (s : σ) :
    ClipboardResult × σ :=
  if ClipboardUtils.isUrl url then
    match p.setUrlAsync url s with
    | (Except.ok _, s') => (⟨true, some url, none⟩, s')
    | (Except.error e, s') =>
        (⟨false, none, some (errMsg e ("Failed to copy URL".data))⟩, s')
  else (⟨false, none, some ("Invalid URL format".data)⟩, s)

/-- `ClipboardService.getText`: check `hasStringAsync`; fail with
"Clipboard is empty" when there is none, else read and return the raw
string. -/
def getText (p : PlatformClipboard σ) (s : σ) : ClipboardResult × σ :=
  match p.hasStringAsync s with
  | (Except.error e, s') =>
      (⟨false, none, some (errMsg e ("Failed to read clipboard".data))⟩, s')
  | (Except.ok false, s') =>
      (⟨false, none, some ("Clipboard is empty".data)⟩, s')
  | (Except.ok true, s') =>
      match p.getStringAsync s' with
      | (Except.ok c, s'') => (⟨true, some c, none⟩, s'')
      | (Except.error e, s'') =>
          (⟨false, none, some (errMsg e ("Failed to read clipboard".data))⟩, s'')

/-- `ClipboardService.getUrl`: check `hasUrlAsync`; fail with "No URL in
clipboard" when there is none, else read via `getUrlAsync`, defaulting to
the empty string (`url || ''`). -/
def getUrl (p : PlatformClipboard σ) (s : σ) : ClipboardResult × σ :=
  match p.hasUrlAsync s with
  | (Except.error e, s') =>
      (⟨false, none, some (errMsg e ("Failed to read URL".data))⟩, s')
  | (Except.ok false, s') =>
      (⟨false, none, some ("No URL in clipboard".data)⟩, s')
  | (Except.ok true, s') =>
      match p.getUrlAsync s' with
      | (Except.ok u, s'') => (⟨true, some (u.getD []), none⟩, s'')
      | (Except.error e, s'') =>
          (⟨false, none, some (errMsg e ("Failed to read URL".data))⟩, s'')

/-- `ClipboardService.hasContent`: the platform `hasStringAsync` boolean,
any thrown failure swallowed to `false`. -/
def hasContent (p : PlatformClipboard σ) (s : σ) : Bool × σ :=
  match p.hasStringAsync s with
  | (Except.ok b, s') => (b, s')
  | (Except.error _, s') => (false, s')

/-- `ClipboardService.hasUrl`: the platform `hasUrlAsync` boolean, any
thrown failure swallowed to `false`. -/
def hasUrl (p : PlatformClipboard σ) (s : σ) : Bool × σ :=
  match p.hasUrlAsync s with
  | (Except.ok b, s') => (b, s')
  | (Except.error _, s') => (false, s')

/-- `ClipboardService.getContent`: compose `getText`; return `null` when
`!result.success || !result.content` (undefined or empty string are both
falsy), else classify and stamp with the current time `now`. -/
def getContent (p : PlatformClipboard σ) (s : σ) (now : Nat) :
    Option ClipboardContent × σ :=
  match getText p s with
  | (r, s') =>
    if r.success then
      match r.content with
      | some c =>
          if c = [] then (none, s')
          else (some ⟨ClipboardUtils.detectContentType c, c, now⟩, s')
      | none => (none, s')
    else (none, s')

/-- `ClipboardService.clear`: write the empty string; report boolean
success, swallowing failures to `false`. -/
def clear (p : PlatformClipboard σ) (s : σ) : Bool × σ :=
  match p.setStringAsync [] s with
  | (Except.ok _, s') => (true, s')
  | (Except.error _, s') => (false, s')

/-- `ClipboardService.copyWithFeedback`: compose `copyText`; on success the
message is `"Copied: " ++ formatForDisplay(text, 50)`, on failure
`result.error || 'Failed to copy'`. -/
def copyWithFeedback (p : PlatformClipboard σ) (text : JsString) (s : σ) :
    (Bool × JsString) × σ :=
  match copyText p text s with
  | (r, s') =>
    if r.success then
      ((true, ("Copied: ".data) ++ ClipboardUtils.formatForDisplay text 50), s')
    else ((false, jsOr r.error ("Failed to copy".data)), s')

end ClipboardService

/-- The observable state of the `useClipboard` hook: last successfully
copied text, the transient `hasCopied` feedback flag, the last error, and
the queue of pending `setTimeout` resets (each entry a delay in
milliseconds; every scheduled action is `setHasCopied(false)`). -/
structure HookState where
  copiedText : Option JsString
  hasCopied : Bool
  error : Option JsString
  timers : List Nat
deriving DecidableEq, Repr

/-- The hook's initial state: `copiedText = null`, `hasCopied = false`,
`error = null`, no pending timers. -/
def initHook : HookState := HookState.mk none false none []

/-- A pending `setTimeout` elapsing: the scheduled `setHasCopied(false)`
runs and the timer is consumed.  With no pending timer nothing happens. -/
def fireTimeout (st : HookState) : HookState :=
  match st.timers with
  | [] => st
  | _ :: rest => HookState.mk st.copiedText false st.error rest

namespace useClipboard

variable {σ : Type}

/-- `useClipboard().copy`: clear the error, run `ClipboardService.copyText`;
on success record the raw `text` as `copiedText`, raise `hasCopied` and
schedule its reset after 2000 ms; on failure record
`result.error || 'Failed to copy'`. -/
def copy (p : PlatformClipboard σ) (text : JsString) (st : HookState) (s : σ) :
    Bool × HookState × σ :=
  match ClipboardService.copyText p text s with
  | (r, s') =>
    if r.success then
      (true, HookState.mk (some text) true none (st.timers ++ [2000]), s')
    else
      (false,
       HookState.mk st.copiedText st.hasCopied
         (some (jsOr r.error ("Failed to copy".data))) st.timers, s')

/-- `useClipboard().copyUrl`: like `copy` but through
`ClipboardService.copyUrl`, with fallback message 'Failed to copy URL'. -/
def copyUrl (p : PlatformClipboard σ) (url : JsString) (st : HookState) (s : σ) :
    Bool × HookState × σ :=
  match ClipboardService.copyUrl p url s with
  | (r, s') =>
    if r.success then
      (true, HookState.mk (some url) true none (st.timers ++ [2000]), s')
    else
      (false,
       HookState.mk st.copiedText st.hasCopied
         (some (jsOr r.error ("Failed to copy URL".data))) st.timers, s')

/-- `useClipboard().paste`: clear the error, run `ClipboardService.getText`;
return the content when `result.success && result.content` is truthy, else
record `result.error || 'Clipboard is empty'` and return `null`. -/
def paste (p : PlatformClipboard σ) (st : HookState) (s : σ) :
    Option JsString × HookState × σ :=
  match ClipboardService.getText p s with
  | (r, s') =>
    if r.success && jsTruthyStr r.content then
      (r.content, HookState.mk st.copiedText st.hasCopied none st.timers, s')
    else
      (none,
       HookState.mk st.copiedText st.hasCopied
         (some (jsOr r.error ("Clipboard is empty".data))) st.timers, s')

/-- `useClipboard().getContent`: clear the error and forward
`ClipboardService.getContent` (which never throws, so the hook's catch
branch is dead). -/
def getContent (p : PlatformClipboard σ) (st : HookState) (s : σ) (now : Nat) :
    Option ClipboardContent × HookState × σ :=
  match ClipboardService.getContent p s now with
  | (c, s') => (c, HookState.mk st.copiedText st.hasCopied none st.timers, s')

/-- `useClipboard().hasContent`: forward `ClipboardService.hasContent`; the
hook state (including the error field) is untouched. -/
def hasContent (p : PlatformClipboard σ) (st : HookState) (s : σ) :
    Bool × HookState × σ :=
  match ClipboardService.hasContent p s with
  | (b, s') => (b, st, s')

/-- `useClipboard().hasUrl`: forward `ClipboardService.hasUrl`; the hook
state (including the error field) is untouched. -/
def hasUrl (p : PlatformClipboard σ) (st : HookState) (s : σ) :
    Bool × HookState × σ :=
  match ClipboardService.hasUrl p s with
  | (b, s') => (b, st, s')

/-- `useClipboard().clear`: clear the error, run `ClipboardService.clear`;
on success reset `copiedText` and `hasCopied` (pending timers are NOT
cancelled); on failure no error is recorded. -/
def clear (p : PlatformClipboard σ) (st : HookState) (s : σ) :
    Bool × HookState × σ :=
  match ClipboardService.clear p s with
  | (b, s') =>
    if b then (true, HookState.mk none false none st.timers, s')
    else (false, HookState.mk st.copiedText st.hasCopied none st.timers, s')

/-- `useClipboard().copyWithFeedback`: clear the error, run
`ClipboardService.copyWithFeedback`; on success record the raw text, raise
`hasCopied` and schedule its reset; on failure record the message. -/
def copyWithFeedback (p : PlatformClipboard σ) (text : JsString)
    (st : HookState) (s : σ) : (Bool × JsString) × HookState × σ :=
  match ClipboardService.copyWithFeedback p text s with
  | ((succ, msg), s') =>
    if succ then
      ((succ, msg), HookState.mk (some text) true none (st.timers ++ [2000]), s')
    else
      ((succ, msg),
       HookState.mk st.copiedText st.hasCopied (some msg) st.timers, s')

end useClipboard

/-- The state of the fake in-memory platform: the string currently held by
the clipboard, or `none` when nothing has been stored. -/
abbrev FakeState := Option JsString

/-- Modelled from the spec: the "fake in-memory platform" used by the
spec's test scenarios (the repository ships no test harness).  It stores
the last written string, never throws, reports `hasString` as "a string
has been stored", and treats the stored string as the URL content. -/
def fakePlatform : PlatformClipboard FakeState :=
  PlatformClipboard.mk
    (fun text _ => (Except.ok (), some text))
    (fun s => (Except.ok (s.getD []), s))
    (fun s => (Except.ok s.isSome, s))
    (fun url _ => (Except.ok (), some url))
    (fun s => (Except.ok s, s))
    (fun s => (Except.ok (match s with
                          | some c => ClipboardUtils.isUrl c
                          | none => false), s))

/-- Modelled from the spec: a "mock platform capability recording call
counts" for URL writes.  The state is the number of `setUrlAsync` calls;
every other operation leaves it unchanged and never throws. -/
def countingUrlPlatform : PlatformClipboard Nat :=
  PlatformClipboard.mk
    (fun _ s => (Except.ok (), s))
    (fun s => (Except.ok [], s))
    (fun s => (Except.ok true, s))
    (fun _ s => (Except.ok (), s + 1))
    (fun s => (Except.ok none, s))
    (fun s => (Except.ok true, s))

/-- Modelled from the spec: "a platform capability whose has-check throws".
Every operation throws an `Error` with message "boom". -/
def throwingPlatform : PlatformClipboard Unit :=
  PlatformClipboard.mk
    (fun _ s => (Except.error (some ("boom".data)), s))
    (fun s => (Except.error (some ("boom".data)), s))
    (fun s => (Except.error (some ("boom".data)), s))
    (fun _ s => (Except.error (some ("boom".data)), s))
    (fun s => (Except.error (some ("boom".data)), s))
    (fun s => (Except.error (some ("boom".data)), s))

/-! ### Helper lemmas -/

/-- `dropWhile` leaves a replicated list untouched when the predicate
rejects its element. -/
theorem dropWhile_replicate_of_not (p : Char → Bool) (c : Char)
    (h : p c = false) (n : Nat) :
    List.dropWhile p (List.replicate n c) = List.replicate n c := by
  cases n with
  | zero => rfl
  | succ n => simp [List.replicate_succ, List.dropWhile_cons, h]

/-- `dropWhile` consumes a replicated list whole when the predicate accepts
its element. -/
theorem dropWhile_replicate_of_pos (p : Char → Bool) (c : Char)
    (h : p c = true) (n : Nat) :
    List.dropWhile p (List.replicate n c) = [] := by
  induction n with
  | zero => rfl
  | succ n ih => simp [List.replicate_succ, List.dropWhile_cons, h, ih]

/-- `jsTrim` leaves a replicated non-whitespace list untouched. -/
theorem jsTrim_replicate_of_not (c : Char) (h : isJsWs c = false) (n : Nat) :
    jsTrim (List.replicate n c) = List.replicate n c := by
  simp [jsTrim, dropWhile_replicate_of_not _ _ h, List.reverse_replicate]

/-! ### C1 — sanitize on long strings -/

/-- Claim C1 as stated is false: a string of 10001 spaces has length
greater than 10000, yet `sanitize` trims it to the empty string, whose
length is 0, not 10000. -/
theorem sanitize_long_counterexample :
    (List.replicate 10001 ' ').length > 10000 ∧
    (ClipboardUtils.sanitize (List.replicate 10001 ' ')).length ≠ 10000 := by
  constructor
  · rw [List.length_replicate]
    omega
  · have h : jsTrim (List.replicate 10001 ' ') = [] := by
      simp only [jsTrim, dropWhile_replicate_of_pos isJsWs ' ' rfl,
        List.reverse_nil, List.dropWhile_nil]
    simp only [ClipboardUtils.sanitize, h, List.take_nil, List.length_nil]
    omega

/-- Claim C1 (amended): for every string `s` whose TRIMMED form is longer
than 10000 characters, `sanitize s` has length exactly 10000 and equals
the first 10000 characters of `jsTrim s`. -/
theorem sanitize_long_spec (s : JsString)
    (h : (jsTrim s).length > 10000) :
    (ClipboardUtils.sanitize s).length = 10000 ∧
    ClipboardUtils.sanitize s = (jsTrim s).take 10000 := by
  refine ⟨?_, rfl⟩
  simp only [ClipboardUtils.sanitize, MAX_CONTENT_LENGTH, List.length_take]
  omega

/-- Witness for C1's amended theorem at a concrete 10001-character
non-whitespace string. -/
theorem sanitize_long_spec_witness :
    (jsTrim (List.replicate 10001 'a')).length > 10000 ∧
    (ClipboardUtils.sanitize (List.replicate 10001 'a')).length = 10000 := by
  have h : (jsTrim (List.replicate 10001 'a')).length > 10000 := by
    rw [jsTrim_replicate_of_not 'a' rfl 10001, List.length_replicate]
    omega
  exact ⟨h, (sanitize_long_spec _ h).1⟩

/-! ### C2 — content-type detection -/

/-- Claim C2: `detectContentType` is EMPTY exactly on the empty string, URL
exactly on case-insensitive `http(s)://` prefixes, and TEXT otherwise; and
the three concrete `isUrl` examples from the spec hold. -/
theorem detectContentType_spec : ∀ s : JsString,
    (ClipboardUtils.detectContentType s = ClipboardContentType.EMPTY ↔
      s.length = 0) ∧
    (ClipboardUtils.detectContentType s = ClipboardContentType.URL ↔
      ClipboardUtils.isUrl s = true) ∧
    (s.length ≠ 0 → ClipboardUtils.isUrl s = false →
      ClipboardUtils.detectContentType s = ClipboardContentType.TEXT) ∧
    ClipboardUtils.isUrl ("HTTPS://Example.com".data) = true ∧
    ClipboardUtils.isUrl ("ftp://example.com".data) = false ∧
    ClipboardUtils.isUrl ([] : JsString) = false := by
  intro s
  refine ⟨?_, ?_, ?_, by decide, by decide, by decide⟩
  · by_cases h : s.length = 0
    · simp [ClipboardUtils.detectContentType, h]
    · by_cases h2 : ClipboardUtils.isUrl s <;>
        simp [ClipboardUtils.detectContentType, h, h2]
  · by_cases h : s.length = 0
    · have hs : s = [] := List.length_eq_zero.mp h
      subst hs
      decide
    · by_cases h2 : ClipboardUtils.isUrl s <;>
        simp [ClipboardUtils.detectContentType, h, h2]
  · intro h h2
    simp [ClipboardUtils.detectContentType, h, h2]

/-- Witness for C2 at the concrete string "x": discharges the implications
of the third conjunct. -/
theorem detectContentType_spec_witness :
    ClipboardUtils.detectContentType ("x".data) = ClipboardContentType.TEXT :=
  (detectContentType_spec ("x".data)).2.2.1 (by decide) (by decide)

/-! ### C3 — copyText then getText round trip on the fake platform -/

/-- Claim C3: for every string `text`, `copyText text` followed immediately
by `getText` on the fake in-memory platform succeeds and returns exactly
`sanitize text` — the trimmed/truncated version, not the raw input. -/
theorem copy_then_get_returns_sanitized (text : JsString) :
    (ClipboardService.copyText fakePlatform text none).1.success = true ∧
    (ClipboardService.getText fakePlatform
        (ClipboardService.copyText fakePlatform text none).2).1 =
      ClipboardResult.mk true (some (ClipboardUtils.sanitize text)) none :=
  ⟨rfl, rfl⟩

/-! ### C4 — copyUrl validation -/

/-- Claim C4: on an invalid URL, `copyUrl` fails with exactly
"Invalid URL format" and performs no platform call (the platform state is
returned untouched, and on the URL-write-counting mock the write count
stays at its initial value); on a valid URL that the platform accepts, the
success result carries the original unsanitized url as content. -/
theorem copyUrl_spec : ∀ (σ : Type) (p : PlatformClipboard σ) (s : σ)
    (url : JsString),
    (ClipboardUtils.isUrl url = false →
      ClipboardService.copyUrl p url s =
        (ClipboardResult.mk false none (some ("Invalid URL format".data)), s)) ∧
    (∀ n : Nat, ClipboardUtils.isUrl url = false →
      (ClipboardService.copyUrl countingUrlPlatform url n).2 = n) ∧
    (ClipboardUtils.isUrl url = true → ∀ s' : σ,
      p.setUrlAsync url s = (Except.ok (), s') →
      ClipboardService.copyUrl p url s =
        (ClipboardResult.mk true (some url) none, s')) := by
  intro σ p s url
  refine ⟨?_, ?_, ?_⟩
  · intro h
    simp [ClipboardService.copyUrl, h]
  · intro n h
    simp [ClipboardService.copyUrl, h]
  · intro h s' hset
    simp [ClipboardService.copyUrl, h, hset]

/-- Witness for C4: "ftp://example.com" is rejected without touching the
counting mock (count stays 0); "http://a" is accepted, carries the raw url
and performs exactly one URL write. -/
theorem copyUrl_spec_witness :
    ClipboardService.copyUrl countingUrlPlatform ("ftp://example.com".data) 0 =
      (ClipboardResult.mk false none (some ("Invalid URL format".data)), 0) ∧
    ClipboardService.copyUrl countingUrlPlatform ("http://a".data) 0 =
      (ClipboardResult.mk true (some ("http://a".data)) none, 1) :=
  ⟨(copyUrl_spec Nat countingUrlPlatform 0 ("ftp://example.com".data)).1
      (by decide),
   (copyUrl_spec Nat countingUrlPlatform 0 ("http://a".data)).2.2
      (by decide) 1 rfl⟩

/-! ### C5 — formatForDisplay -/

/-- Claim C5: `formatForDisplay text maxLength` returns `text` unchanged
when it fits, and otherwise the first `maxLength` characters followed by
the three-character "..." marker, for a total length of `maxLength + 3`. -/
theorem formatForDisplay_spec : ∀ (text : JsString) (maxLength : Nat),
    (text.length ≤ maxLength →
      ClipboardUtils.formatForDisplay text maxLength = text) ∧
    (maxLength < text.length →
      ClipboardUtils.formatForDisplay text maxLength =
        text.take maxLength ++ ("...".data) ∧
      (ClipboardUtils.formatForDisplay text maxLength).length =
        maxLength + 3) := by
  intro text maxLength
  constructor
  · intro h
    simp [ClipboardUtils.formatForDisplay, h]
  · intro h
    have h2 : ¬ text.length ≤ maxLength := not_le.mpr h
    refine ⟨by simp [ClipboardUtils.formatForDisplay, h2], ?_⟩
    simp only [ClipboardUtils.formatForDisplay, if_neg h2,
      List.length_append, List.length_take]
    have h3 : ("...".data).length = 3 := rfl
    rw [h3]
    omega

/-- Witness for C5 at the spec's own examples: "hello" with limit 10 is
unchanged; 150 'a's with limit 100 format to length 103. -/
theorem formatForDisplay_spec_witness :
    ClipboardUtils.formatForDisplay ("hello".data) 10 = "hello".data ∧
    (ClipboardUtils.formatForDisplay (List.replicate 150 'a') 100).length =
      103 := by
  refine ⟨(formatForDisplay_spec ("hello".data) 10).1 (by decide), ?_⟩
  have h : (100 : Nat) < (List.replicate 150 'a').length := by
    rw [List.length_replicate]
    omega
  exact ((formatForDisplay_spec (List.replicate 150 'a') 100).2 h).2

/-! ### C6 — result-shape invariant -/

/-- A well-formed `ClipboardResult`: content is present exactly when the
operation succeeded (each of the four value-producing operations produces a
value on success), and an error is present exactly when it failed. -/
def resultWellFormed (r : ClipboardResult) : Prop :=
  r.content.isSome = r.success ∧ r.error.isSome = !r.success

/-- Claim C6: every result returned by `copyText`, `copyUrl`, `getText`
and `getUrl` — for any platform behavior whatsoever — is well formed. -/
theorem service_results_wellFormed : ∀ (σ : Type) (p : PlatformClipboard σ)
    (s : σ) (text url : JsString),
    resultWellFormed (ClipboardService.copyText p text s).1 ∧
    resultWellFormed (ClipboardService.copyUrl p url s).1 ∧
    resultWellFormed (ClipboardService.getText p s).1 ∧
    resultWellFormed (ClipboardService.getUrl p s).1 := by
  intro σ p s text url
  refine ⟨?_, ?_, ?_, ?_⟩
  · rcases h : p.setStringAsync (ClipboardUtils.sanitize text) s with ⟨e | v, s'⟩ <;>
      simp [ClipboardService.copyText, h, resultWellFormed]
  · by_cases hu : ClipboardUtils.isUrl url
    · rcases h : p.setUrlAsync url s with ⟨e | v, s'⟩ <;>
        simp [ClipboardService.copyUrl, hu, h, resultWellFormed]
    · simp [ClipboardService.copyUrl, hu, resultWellFormed]
  · rcases h : p.hasStringAsync s with ⟨e | b, s'⟩
    · simp [ClipboardService.getText, h, resultWellFormed]
    · cases b
      · simp [ClipboardService.getText, h, resultWellFormed]
      · rcases h2 : p.getStringAsync s' with ⟨e2 | c, s''⟩ <;>
          simp [ClipboardService.getText, h, h2, resultWellFormed]
  · rcases h : p.hasUrlAsync s with ⟨e | b, s'⟩
    · simp [ClipboardService.getUrl, h, resultWellFormed]
    · cases b
      · simp [ClipboardService.getUrl, h, resultWellFormed]
      · rcases h2 : p.getUrlAsync s' with ⟨e2 | u, s''⟩ <;>
          simp [ClipboardService.getUrl, h, h2, resultWellFormed]

/-! ### C7 — has-checks never raise -/

/-- Claim C7: `hasContent` and `hasUrl` are total by construction and
swallow any platform failure to `false`; when the platform check returns a
boolean, that boolean is forwarded unchanged. -/
theorem hasChecks_swallow_failures : ∀ (σ : Type) (p : PlatformClipboard σ)
    (s : σ),
    (∀ (e : JsErr) (s' : σ), p.hasStringAsync s = (Except.error e, s') →
      ClipboardService.hasContent p s = (false, s')) ∧
    (∀ (e : JsErr) (s' : σ), p.hasUrlAsync s = (Except.error e, s') →
      ClipboardService.hasUrl p s = (false, s')) ∧
    (∀ (b : Bool) (s' : σ), p.hasStringAsync s = (Except.ok b, s') →
      ClipboardService.hasContent p s = (b, s')) ∧
    (∀ (b : Bool) (s' : σ), p.hasUrlAsync s = (Except.ok b, s') →
      ClipboardService.hasUrl p s = (b, s')) := by
  intro σ p s
  refine ⟨?_, ?_, ?_, ?_⟩ <;> intro x s' h
  · simp [ClipboardService.hasContent, h]
  · simp [ClipboardService.hasUrl, h]
  · simp [ClipboardService.hasContent, h]
  · simp [ClipboardService.hasUrl, h]

/-- Witness for C7 on the platform whose has-checks throw: both wrapped
calls report `false` instead of propagating. -/
theorem hasChecks_swallow_failures_witness :
    ClipboardService.hasContent throwingPlatform () = (false, ()) ∧
    ClipboardService.hasUrl throwingPlatform () = (false, ()) :=
  ⟨(hasChecks_swallow_failures Unit throwingPlatform ()).1
      (some ("boom".data)) () rfl,
   (hasChecks_swallow_failures Unit throwingPlatform ()).2.1
      (some ("boom".data)) () rfl⟩

/-! ### C8 — end-to-end copy on the stateful binding -/

/-- Claim C8 as stated is false: after `copy("  padded text  ")` the hook
stores the RAW argument in its last-copied-text state (`setCopiedText(text)`
receives the unsanitized input), not the trimmed "padded text". -/
theorem copy_padded_counterexample :
    (useClipboard.copy fakePlatform ("  padded text  ".data)
        initHook none).2.1.copiedText ≠ some ("padded text".data) := by
  decide

/-- Claim C8 (amended): after a successful `copy("  padded text  ")` on the
stateful binding, the call reports success, the feedback flag is true
immediately, exactly one 2000 ms reset is pending and firing it lowers the
flag; the last-copied-text state holds the raw argument "  padded text  "
(unsanitized), while the platform clipboard receives the trimmed
"padded text". -/
theorem copy_padded_spec :
    (useClipboard.copy fakePlatform ("  padded text  ".data)
        initHook none).1 = true ∧
    (useClipboard.copy fakePlatform ("  padded text  ".data)
        initHook none).2.1.hasCopied = true ∧
    (useClipboard.copy fakePlatform ("  padded text  ".data)
        initHook none).2.1.timers = [2000] ∧
    (fireTimeout (useClipboard.copy fakePlatform ("  padded text  ".data)
        initHook none).2.1).hasCopied = false ∧
    (useClipboard.copy fakePlatform ("  padded text  ".data)
        initHook none).2.1.copiedText = some ("  padded text  ".data) ∧
    (useClipboard.copy fakePlatform ("  padded text  ".data)
        initHook none).2.2 = some ("padded text".data) := by
  decide

/-! ### C9 — error-field discipline of the hook operations -/

/-- Claim C9 as stated is false: `hasContent` on the hook does not clear
the last-error before attempting — a stale previous error survives an
(otherwise successful) `hasContent` call. -/
theorem hook_error_clear_counterexample :
    (useClipboard.hasContent fakePlatform
        (HookState.mk none false (some ("previous error".data)) [])
        none).2.1.error = some ("previous error".data) := by
  decide

/-- Claim C9 (amended): the error field after each hook operation is fully
determined as follows — `copy`, `copyUrl`, `paste` and `copyWithFeedback`
clear it and set it exactly on failure; `getContent` and `clear` clear it
and never set it (their failures are swallowed upstream); `hasContent` and
`hasUrl` leave it untouched. -/
theorem hook_error_discipline : ∀ (σ : Type) (p : PlatformClipboard σ)
    (s : σ) (st : HookState) (text url : JsString) (now : Nat),
    ((useClipboard.copy p text st s).2.1.error =
      if (ClipboardService.copyText p text s).1.success then none
      else some (jsOr (ClipboardService.copyText p text s).1.error
        ("Failed to copy".data))) ∧
    ((useClipboard.copyUrl p url st s).2.1.error =
      if (ClipboardService.copyUrl p url s).1.success then none
      else some (jsOr (ClipboardService.copyUrl p url s).1.error
        ("Failed to copy URL".data))) ∧
    ((useClipboard.paste p st s).2.1.error =
      if (ClipboardService.getText p s).1.success &&
          jsTruthyStr (ClipboardService.getText p s).1.content then none
      else some (jsOr (ClipboardService.getText p s).1.error
        ("Clipboard is empty".data))) ∧
    ((useClipboard.getContent p st s now).2.1.error = none) ∧
    ((useClipboard.hasContent p st s).2.1.error = st.error) ∧
    ((useClipboard.hasUrl p st s).2.1.error = st.error) ∧
    ((useClipboard.clear p st s).2.1.error = none) ∧
    ((useClipboard.copyWithFeedback p text st s).2.1.error =
      if (ClipboardService.copyWithFeedback p text s).1.1 then none
      else some (ClipboardService.copyWithFeedback p text s).1.2) := by
  intro σ p s st text url now
  refine ⟨?_, ?_, ?_, ?_, ?_, ?_, ?_, ?_⟩
  · rcases h : ClipboardService.copyText p text s with ⟨r, s'⟩
    cases hr : r.success <;> simp [useClipboard.copy, h, hr]
  · rcases h : ClipboardService.copyUrl p url s with ⟨r, s'⟩
    cases hr : r.success <;> simp [useClipboard.copyUrl, h, hr]
  · rcases h : ClipboardService.getText p s with ⟨r, s'⟩
    cases hr : r.success && jsTruthyStr r.content <;>
      simp [useClipboard.paste, h, hr]
  · rcases h : ClipboardService.getContent p s now with ⟨c, s'⟩
    simp [useClipboard.getContent, h]
  · rcases h : ClipboardService.hasContent p s with ⟨b, s'⟩
    simp [useClipboard.hasContent, h]
  · rcases h : ClipboardService.hasUrl p s with ⟨b, s'⟩
    simp [useClipboard.hasUrl, h]
  · rcases h : ClipboardService.clear p s with ⟨b, s'⟩
    cases b <;> simp [useClipboard.clear, h]
  · rcases h : ClipboardService.copyWithFeedback p text s with ⟨⟨succ, msg⟩, s'⟩
    cases succ <;> simp [useClipboard.copyWithFeedback, h]

/-! ### C10 — getContent never yields empty or EMPTY-typed content -/

/-- Claim C10: whenever the service `getContent` returns a non-null
`ClipboardContent`, its content string is non-empty and its type is TEXT
or URL, never EMPTY: empty or failed reads yield null instead. -/
theorem getContent_nonEmpty : ∀ (σ : Type) (p : PlatformClipboard σ) (s : σ)
    (now : Nat) (cc : ClipboardContent),
    (ClipboardService.getContent p s now).1 = some cc →
    cc.content ≠ [] ∧ cc.type ≠ ClipboardContentType.EMPTY ∧
    (cc.type = ClipboardContentType.TEXT ∨
     cc.type = ClipboardContentType.URL) := by
  intro σ p s now cc h
  rcases hg : ClipboardService.getText p s with ⟨r, s'⟩
  simp only [ClipboardService.getContent, hg] at h
  cases hr : r.success
  · simp [hr] at h
  · rcases hc : r.content with _ | c
    · simp [hr, hc] at h
    · by_cases hce : c = []
      · simp [hr, hc, hce] at h
      · simp only [hr, hc, if_pos rfl, if_neg hce, ite_true] at h
        have hcc : cc = ClipboardContent.mk
            (ClipboardUtils.detectContentType c) c now := by
          cases h
          rfl
        subst hcc
        refine ⟨hce, ?_, ?_⟩
        · have hlen : c.length ≠ 0 := by
            simpa [List.length_eq_zero] using hce
          by_cases hu : ClipboardUtils.isUrl c <;>
            simp [ClipboardUtils.detectContentType, hlen, hu]
        · have hlen : c.length ≠ 0 := by
            simpa [List.length_eq_zero] using hce
          by_cases hu : ClipboardUtils.isUrl c <;>
            simp [ClipboardUtils.detectContentType, hlen, hu]

/-- Witness for C10: on the fake platform holding "hello", `getContent`
returns a TEXT-typed, non-empty content record. -/
theorem getContent_nonEmpty_witness :
    (ClipboardService.getContent fakePlatform (some ("hello".data)) 42).1 =
      some (ClipboardContent.mk ClipboardContentType.TEXT ("hello".data) 42) ∧
    (("hello".data : JsString) ≠ [] ∧
     ClipboardContentType.TEXT ≠ ClipboardContentType.EMPTY ∧
     (ClipboardContentType.TEXT = ClipboardContentType.TEXT ∨
      ClipboardContentType.TEXT = ClipboardContentType.URL)) :=
  ⟨by decide,
   getContent_nonEmpty FakeState fakePlatform (some ("hello".data)) 42
     (ClipboardContent.mk ClipboardContentType.TEXT ("hello".data) 42)
     (by decide)⟩

end Clipboard
